import Mathlib

/-
Shallow embedding of the errorex Go library (fkmatsuda/errorex).

`errorex.go` keeps a process-wide registry mapping an error-code string to a
description and the `reflect.Type` of the detail payload registered for that
code.  `New` builds a typed error value after validating the code and the
detail type; `Is` is a reflection-based capability test; `Error()` renders the
typed error as a JSON-shaped string.  `error_converter.go` adds a chain of
responsibility of error converters.

Go panics are modelled as the `Except.error` branch carrying the `ex` value
the Go code panics with; the mutable package-level registry is modelled by
explicit state passing of an association list.
-/

set_option autoImplicit false

namespace Errorex

/-- Go constant `ErrCodeUnknownError = "errorex.000"`. -/
def ErrCodeUnknownError : String := "errorex.000"

/-- Go constant `ErrCodeNotRegistered = "errorex.001"`. -/
def ErrCodeNotRegistered : String := "errorex.001"

/-- Go constant `ErrCodeAlreadyRegistered = "errorex.002"`. -/
def ErrCodeAlreadyRegistered : String := "errorex.002"

/-- Go constant `ErrDetailTypeMismatch = "errorex.003"`. -/
def ErrDetailTypeMismatch : String := "errorex.003"

/-- Identity of a Go `reflect.Type` as stored in the registry entry
(`errorCodeRegistry.detailType = reflect.TypeOf(detail)`).  The three detail
struct types declared by the package are distinguished constructors; any other
Go type is identified by its `reflect.Type` identity, abstracted as a name. -/
inductive TypeDesc where
  | unknownErrorDetail
  | errorEXDetail
  | errorEXDetailTypeMismatch
  | named (s : String)
deriving DecidableEq

/-- Go `reflect.Type.String()` for the modelled types (package-qualified name
for the declared structs, the abstract name otherwise). -/
def TypeDesc.str : TypeDesc → String
  | .unknownErrorDetail => "errorex.UnknownErrorDetail"
  | .errorEXDetail => "errorex.ErrorEXDetail"
  | .errorEXDetailTypeMismatch => "errorex.ErrorEXDetailTypeMismatch"
  | .named s => s

/-- A Go value used as an errorex detail (the `detail any` field).  The three
detail struct types of the package are modelled with their fields.  A value of
any other Go type is modelled by its type identity together with the outcome
of `encoding/json.Marshal` on it: `userOk` carries the JSON encoding, `userBad`
the marshalling error message (e.g. a value containing a channel or a cycle). -/
inductive DetailVal where
  | unknownErrorDetail (detail : String)
  | errorEXDetail (code : String)
  | errorEXDetailTypeMismatch (expectedType actualType : String)
  | userOk (typeName : String) (json : String)
  | userBad (typeName : String) (cause : String)
deriving DecidableEq

/-- Go `reflect.TypeOf` on a detail value. -/
def typeOf : DetailVal → TypeDesc
  | .unknownErrorDetail _ => .unknownErrorDetail
  | .errorEXDetail _ => .errorEXDetail
  | .errorEXDetailTypeMismatch _ _ => .errorEXDetailTypeMismatch
  | .userOk t _ => .named t
  | .userBad t _ => .named t

/-- Lower-case hexadecimal digit, as used by `encoding/json` escapes. -/
def hexDigit (n : Nat) : String :=
  if n < 10 then String.singleton (Char.ofNat (48 + n))
  else String.singleton (Char.ofNat (87 + n))

/-- Escaping of one character inside a JSON string, following Go
`encoding/json` defaults (HTML-safe escaping of `<`, `>`, `&`, ` `,
` `, and `\u00XX` for other control characters). -/
def jsonEscapeChar (c : Char) : String :=
  if c = '"' then "\\\""
  else if c = '\\' then "\\\\"
  else if c = '\n' then "\\n"
  else if c = '\r' then "\\r"
  else if c = '\t' then "\\t"
  else if c = '<' then "\\u003c"
  else if c = '>' then "\\u003e"
  else if c = '&' then "\\u0026"
  else if c.toNat < 32 then "\\u00" ++ hexDigit (c.toNat / 16) ++ hexDigit (c.toNat % 16)
  else if c.toNat = 8232 then "\\u2028"
  else if c.toNat = 8233 then "\\u2029"
  else String.singleton c

/-- Go `encoding/json` encoding of a string value. -/
def jsonString (s : String) : String :=
  "\"" ++ String.join (s.data.map jsonEscapeChar) ++ "\""

/-- Go `json.Marshal` on a detail value.  The three declared detail structs
marshal deterministically through their field tags; the encoding of any other
value is the outcome carried by the `userOk`/`userBad` constructor.
`Except.error` carries the marshalling error message. -/
def jsonMarshal : DetailVal → Except String String
  | .unknownErrorDetail d => .ok ("\x7b\"detail\":" ++ jsonString d ++ "\x7d")
  | .errorEXDetail c => .ok ("\x7b\"code\":" ++ jsonString c ++ "\x7d")
  | .errorEXDetailTypeMismatch e a =>
      .ok ("\x7b\"expectedType\":" ++ jsonString e ++ ",\"actualType\":" ++ jsonString a ++ "\x7d")
  | .userOk _ j => .ok j
  | .userBad _ cause => .error cause

/-- The Go struct `ex` backing the `EX` interface: a code and a detail. -/
structure ex where
  code : String
  detail : DetailVal
deriving DecidableEq

/-- Go method `(e *ex) Code()`: returns the stored code verbatim. -/
def ex.Code (e : ex) : String :=
  e.code

/-- Go method `(e *ex) Detail()`: returns the stored detail verbatim. -/
def ex.Detail (e : ex) : DetailVal :=
  e.detail

/-- Go method `(e *ex) Error()`: marshals the detail to JSON and formats
`\x7b"code": "<code>", "detail": <json>\x7d`; if marshalling fails it formats
`\x7b"code": "<code>", "detail": "failed to marshal detail: <cause>"\x7d`. -/
def ex.Error (e : ex) : String :=
  match jsonMarshal e.detail with
  | .error cause =>
      "\x7b\"code\": \"" ++ e.code ++ "\", \"detail\": \"failed to marshal detail: "
        ++ cause ++ "\"\x7d"
  | .ok detailJSON =>
      "\x7b\"code\": \"" ++ e.code ++ "\", \"detail\": " ++ detailJSON ++ "\x7d"

/-- Go struct `errorCodeRegistry`: one entry of the registry. -/
structure errorCodeRegistry where
  code : String
  description : String
  detailType : TypeDesc
deriving DecidableEq

/-- The package-level `errorCodes` map, modelled as an association list kept as
explicit state (Go map insertion appends a fresh key). -/
abbrev Registry := List (String × errorCodeRegistry)

/-- Lookup `errorCodes[code]` in the modelled registry. -/
def regFind (reg : Registry) (code : String) : Option errorCodeRegistry :=
  match reg.find? (fun p => p.fst == code) with
  | some p => some p.snd
  | none => none

/-- Go `RegisterErrorCode(code, description, detail)`.  Panics (modelled as
`Except.error`) with `New(ErrCodeAlreadyRegistered, ErrorEXDetail\x7bCode: code\x7d)`
when the code is present; otherwise stores a new entry with
`detailType = reflect.TypeOf(detail)`.  The Go source builds the panic value
with a nested `New` call; under any registry containing the reserved codes, as
`init` guarantees, that nested call returns exactly the value inlined here
(proved below). -/
def RegisterErrorCode (reg : Registry) (code description : String) (detail : DetailVal) :
    Except ex Registry :=
  if (regFind reg code).isSome then
    .error ⟨ErrCodeAlreadyRegistered, DetailVal.errorEXDetail code⟩
  else
    .ok (reg ++ [(code, ⟨code, description, typeOf detail⟩)])

/-- Go `New(code, detail)`.  Panics with
`New(ErrCodeNotRegistered, ErrorEXDetail\x7bCode: code\x7d)` when the code is not
registered, panics with a `ErrDetailTypeMismatch` errorex when
`reflect.TypeOf(detail)` differs from the registered type, and otherwise
returns `&ex\x7bcode, detail\x7d`.  As for `RegisterErrorCode`, the panic values
built by the nested `New` calls of the source are inlined (equivalence with the
nested call is proved below). -/
def New (reg : Registry) (code : String) (detail : DetailVal) : Except ex ex :=
  match regFind reg code with
  | none => .error ⟨ErrCodeNotRegistered, DetailVal.errorEXDetail code⟩
  | some errorRegistry =>
      if typeOf detail ≠ errorRegistry.detailType then
        .error ⟨ErrDetailTypeMismatch,
          DetailVal.errorEXDetailTypeMismatch errorRegistry.detailType.str (typeOf detail).str⟩
      else
        .ok ⟨code, detail⟩

/-- The Go package `init` function: registers the four reserved codes, in
order, starting from the empty registry. -/
def runInit : Except ex Registry := do
  let r0 ← RegisterErrorCode [] ErrCodeUnknownError "Unknown errorex"
    (DetailVal.unknownErrorDetail "")
  let r1 ← RegisterErrorCode r0 ErrCodeNotRegistered "Errorex code not registered"
    (DetailVal.errorEXDetail "")
  let r2 ← RegisterErrorCode r1 ErrCodeAlreadyRegistered "Errorex code already registered"
    (DetailVal.errorEXDetail "")
  RegisterErrorCode r2 ErrDetailTypeMismatch "Errorex detail type mismatch"
    (DetailVal.errorEXDetailTypeMismatch "" "")

/-- The registry produced by `init` (proved equal to `runInit` below). -/
def initRegistry : Registry :=
  [(ErrCodeUnknownError,
      ⟨ErrCodeUnknownError, "Unknown errorex", TypeDesc.unknownErrorDetail⟩),
   (ErrCodeNotRegistered,
      ⟨ErrCodeNotRegistered, "Errorex code not registered", TypeDesc.errorEXDetail⟩),
   (ErrCodeAlreadyRegistered,
      ⟨ErrCodeAlreadyRegistered, "Errorex code already registered", TypeDesc.errorEXDetail⟩),
   (ErrDetailTypeMismatch,
      ⟨ErrDetailTypeMismatch, "Errorex detail type mismatch", TypeDesc.errorEXDetailTypeMismatch⟩)]

/-- One result of calling a zero-argument method through reflection: either a
string value or a value of some non-string kind. -/
inductive CallResult where
  | str (s : String)
  | nonString
deriving DecidableEq

/-- Reflection-visible shape of a non-nil Go `error` value other than the
package-declared `*ex`: whether the dynamic value is a pointer, its `Error()`
message, the results of calling a zero-argument method named `Code` when one
exists (`none` when the value has no such method), and whether the dynamic
type implements the full `EX` interface. -/
structure DuckShape where
  isPtr : Bool
  msg : String
  codeResults : Option (List CallResult)
  implementsEX : Bool
deriving DecidableEq

/-- A non-nil Go `error` value as the package observes it: either a typed
error `*ex` produced by `New`, or any other error value described by its
reflection-visible shape.  A nil `error` is `Option.none` at use sites. -/
inductive GoErr where
  | exErr (e : ex)
  | duck (s : DuckShape)
deriving DecidableEq

/-- The `Error()` message of the value. -/
def GoErr.msg : GoErr → String
  | .exErr e => ex.Error e
  | .duck s => s.msg

/-- Whether `reflect.ValueOf(err).Kind() == reflect.Ptr` (`New` returns `&ex`,
a pointer). -/
def GoErr.isPtr : GoErr → Bool
  | .exErr _ => true
  | .duck s => s.isPtr

/-- Results of `MethodByName("Code").Call(nil)` when the method exists
(`*ex` has `Code() string` returning the stored code). -/
def GoErr.codeResults : GoErr → Option (List CallResult)
  | .exErr e => some [CallResult.str e.code]
  | .duck s => s.codeResults

/-- Whether the dynamic value satisfies the type assertion `err.(EX)`. -/
def GoErr.implementsEX : GoErr → Bool
  | .exErr _ => true
  | .duck s => s.implementsEX

/-- Go `Is(err, code)`.  Panics (modelled as `Except.error`, value inlined as
in `New`) when `code` is unregistered; returns false for nil `err`, for
non-pointer values, for values without a `Code` method, when the call does not
yield exactly one result, and when the result is not of string kind; otherwise
compares the returned string with `code`. -/
def Is (reg : Registry) (err : Option GoErr) (code : String) : Except ex Bool :=
  match regFind reg code with
  | none => .error ⟨ErrCodeNotRegistered, DetailVal.errorEXDetail code⟩
  | some _ =>
      match err with
      | none => .ok false
      | some v =>
          if !v.isPtr then .ok false
          else
            match v.codeResults with
            | none => .ok false
            | some results =>
                match results with
                | [CallResult.str s] => .ok (s == code)
                | _ => .ok false

/-- The concrete converter types of `error_converter.go`: `BaseErrorConverter`,
`unknownErrorConverter` and `exErrorConverter`. -/
inductive ConvKind where
  | baseConv
  | unknownConv
  | exPassConv
deriving DecidableEq

/-- A converter node together with the linked chain of its successors: `kind`
is the concrete type of this node, `rest` flattens the `next` links
(`rest = []` models `next == nil`). -/
structure Converter where
  kind : ConvKind
  rest : List ConvKind
deriving DecidableEq

/-- Go `SetNext(next)`: replaces the successor link of this node by the chain
headed at `n`. -/
def SetNext (c n : Converter) : Converter :=
  ⟨c.kind, n.kind :: n.rest⟩

/-- Go `NewUnknownErrorConverter()`: a fresh `unknownErrorConverter` with no
successor. -/
def NewUnknownErrorConverter : Converter :=
  ⟨ConvKind.unknownConv, []⟩

/-- Go `NewEXErrorConverter(next)`: a fresh `exErrorConverter` whose successor
is set to `next`. -/
def NewEXErrorConverter (next : Converter) : Converter :=
  SetNext ⟨ConvKind.exPassConv, []⟩ next

/-- Dispatch of `ConvertError` on a node of kind `k` whose successor chain is
`rest`.  `BaseErrorConverter.ConvertError` delegates to the successor when one
is set and returns nil (`Option.none`) otherwise;
`unknownErrorConverter.ConvertError` returns
`New(ErrCodeUnknownError, UnknownErrorDetail\x7bDetail: err.Error()\x7d)`;
`exErrorConverter.ConvertError` returns the value unchanged when it is already
an `EX` and otherwise falls through to the base behaviour.  The outer
`Except.error` propagates a panic of the nested `New`. -/
def convertOn (reg : Registry) : ConvKind → List ConvKind → GoErr → Except ex (Option GoErr)
  | ConvKind.baseConv, [], _ => .ok none
  | ConvKind.baseConv, k :: rest, err => convertOn reg k rest err
  | ConvKind.unknownConv, _, err =>
      match New reg ErrCodeUnknownError (DetailVal.unknownErrorDetail (GoErr.msg err)) with
      | .error p => .error p
      | .ok e => .ok (some (GoErr.exErr e))
  | ConvKind.exPassConv, rest, err =>
      if GoErr.implementsEX err then .ok (some err)
      else
        match rest with
        | [] => .ok none
        | k :: rest2 => convertOn reg k rest2 err

/-- Go `ConvertError(err)` invoked on the head node of a chain. -/
def ConvertError (reg : Registry) (c : Converter) (err : GoErr) : Except ex (Option GoErr) :=
  convertOn reg c.kind c.rest err

/-- Whether the last node of the chain is an `unknownErrorConverter`. -/
def endsInUnknown : ConvKind → List ConvKind → Bool
  | ConvKind.unknownConv, _ => true
  | _, [] => false
  | _, k :: rest => endsInUnknown k rest

/-- Whether the value exposes the duck-typed capability `Is` probes for: a
`Code` method whose call yields exactly one result of string kind. -/
def hasCodeCapability (v : GoErr) : Bool :=
  match GoErr.codeResults v with
  | some [CallResult.str _] => true
  | _ => false

/-- One successful registration step between registry states. -/
def regStep (r r2 : Registry) : Prop :=
  ∃ code description detail, RegisterErrorCode r code description detail = Except.ok r2

theorem find?_append_some {α : Type} (l1 l2 : List α) (p : α → Bool) (a : α)
    (h : l1.find? p = some a) : (l1 ++ l2).find? p = some a := by
  induction l1 with
  | nil => simp [List.find?] at h
  | cons x xs ih =>
      cases hpx : p x with
      | true =>
          rw [List.find?_cons_of_pos _ hpx] at h
          rw [List.cons_append, List.find?_cons_of_pos _ hpx]
          exact h
      | false =>
          rw [List.find?_cons_of_neg _ (by simp [hpx])] at h
          rw [List.cons_append, List.find?_cons_of_neg _ (by simp [hpx])]
          exact ih h

theorem regFind_append_some (r l : Registry) (c : String) (e : errorCodeRegistry)
    (h : regFind r c = some e) : regFind (r ++ l) c = some e := by
  unfold regFind at h ⊢
  cases hf : r.find? (fun p => p.fst == c) with
  | none => rw [hf] at h; exact absurd h (by simp)
  | some q =>
      rw [hf] at h
      rw [find?_append_some r l _ q hf]
      exact h

theorem find?_append_none {α : Type} (l1 l2 : List α) (p : α → Bool)
    (h : l1.find? p = none) : (l1 ++ l2).find? p = l2.find? p := by
  induction l1 with
  | nil => simp
  | cons x xs ih =>
      cases hpx : p x with
      | true => rw [List.find?_cons_of_pos _ hpx] at h; exact absurd h (by simp)
      | false =>
          rw [List.find?_cons_of_neg _ (by simp [hpx])] at h
          rw [List.cons_append, List.find?_cons_of_neg _ (by simp [hpx])]
          exact ih h

theorem regFind_insert_self (r : Registry) (c : String) (e : errorCodeRegistry)
    (h : regFind r c = none) : regFind (r ++ [(c, e)]) c = some e := by
  unfold regFind at h ⊢
  cases hf : r.find? (fun p => p.fst == c) with
  | none =>
      rw [find?_append_none r [(c, e)] _ hf]
      simp [List.find?]
  | some q => rw [hf] at h; exact absurd h (by simp)

theorem registerErrorCode_ok_eq (r : Registry) (c d : String) (dv : DetailVal) (r2 : Registry)
    (h : RegisterErrorCode r c d dv = Except.ok r2) :
    r2 = r ++ [(c, ⟨c, d, typeOf dv⟩)] := by
  unfold RegisterErrorCode at h
  split at h
  · exact absurd h (by simp)
  · injection h with h; exact h.symm

theorem regFind_persists (c : String) (e : errorCodeRegistry) (r r2 : Registry)
    (hsteps : Relation.ReflTransGen regStep r r2) (h : regFind r c = some e) :
    regFind r2 c = some e := by
  induction hsteps with
  | refl => exact h
  | tail _ hstep ih =>
      obtain ⟨c2, d2, dv2, hok⟩ := hstep
      rw [registerErrorCode_ok_eq _ _ _ _ _ hok]
      exact regFind_append_some _ _ _ _ ih

/-- C1: `New(code, detail)` panics with a `NotRegistered` errorex carrying the
code when the code is unregistered, panics with a `DetailTypeMismatch` errorex
carrying the expected and the actual type descriptors when the detail type
differs from the registered one, and otherwise returns the typed error holding
exactly `code` and `detail`. -/
theorem new_validates_and_constructs (reg : Registry) (code : String) (detail : DetailVal) :
    (regFind reg code = none →
      New reg code detail
        = Except.error ⟨ErrCodeNotRegistered, DetailVal.errorEXDetail code⟩)
  ∧ (∀ entry, regFind reg code = some entry → typeOf detail ≠ entry.detailType →
      New reg code detail
        = Except.error ⟨ErrDetailTypeMismatch,
            DetailVal.errorEXDetailTypeMismatch entry.detailType.str (typeOf detail).str⟩)
  ∧ (∀ entry, regFind reg code = some entry → typeOf detail = entry.detailType →
      New reg code detail = Except.ok ⟨code, detail⟩) := by
  refine ⟨fun h => ?_, fun entry h hne => ?_, fun entry h he => ?_⟩
  · simp [New, h]
  · simp [New, h, hne]
  · simp [New, h, he]

theorem new_validates_and_constructs_witness :
    New initRegistry "acme.001" (DetailVal.errorEXDetail "x")
      = Except.error ⟨ErrCodeNotRegistered, DetailVal.errorEXDetail "acme.001"⟩
  ∧ New initRegistry ErrCodeUnknownError (DetailVal.errorEXDetail "x")
      = Except.error ⟨ErrDetailTypeMismatch,
          DetailVal.errorEXDetailTypeMismatch "errorex.UnknownErrorDetail" "errorex.ErrorEXDetail"⟩
  ∧ New initRegistry ErrCodeUnknownError (DetailVal.unknownErrorDetail "boom")
      = Except.ok ⟨ErrCodeUnknownError, DetailVal.unknownErrorDetail "boom"⟩ :=
  ⟨(new_validates_and_constructs initRegistry "acme.001" _).1 rfl,
   (new_validates_and_constructs initRegistry ErrCodeUnknownError _).2.1
     ⟨ErrCodeUnknownError, "Unknown errorex", TypeDesc.unknownErrorDetail⟩ rfl (by decide),
   (new_validates_and_constructs initRegistry ErrCodeUnknownError _).2.2
     ⟨ErrCodeUnknownError, "Unknown errorex", TypeDesc.unknownErrorDetail⟩ rfl rfl⟩

/-- C3: `Error()` is a total function; when the detail marshals to JSON it
returns exactly `\x7b"code": "<code>", "detail": <json-of-detail>\x7d`, and
when marshalling fails it returns
`\x7b"code": "<code>", "detail": "failed to marshal detail: <cause>"\x7d`
instead of failing. -/
theorem error_string_format (e : ex) :
    (∀ s, jsonMarshal e.detail = Except.ok s →
      ex.Error e = "\x7b\"code\": \"" ++ e.code ++ "\", \"detail\": " ++ s ++ "\x7d")
  ∧ (∀ cause, jsonMarshal e.detail = Except.error cause →
      ex.Error e = "\x7b\"code\": \"" ++ e.code
        ++ "\", \"detail\": \"failed to marshal detail: " ++ cause ++ "\"\x7d") := by
  constructor
  · intro s h; simp [ex.Error, h]
  · intro cause h; simp [ex.Error, h]

theorem error_string_format_witness :
    ex.Error ⟨"test.format", DetailVal.userOk "struct \x7b Message string \x7d"
        "\x7b\"Message\":\"test detail\"\x7d"⟩
      = "\x7b\"code\": \"test.format\", \"detail\": \x7b\"Message\":\"test detail\"\x7d\x7d"
  ∧ ex.Error ⟨"test.bad", DetailVal.userBad "chan int" "json: unsupported type: chan int"⟩
      = "\x7b\"code\": \"test.bad\", \"detail\": \"failed to marshal detail: json: unsupported type: chan int\"\x7d" :=
  ⟨(error_string_format ⟨"test.format", DetailVal.userOk "struct \x7b Message string \x7d"
        "\x7b\"Message\":\"test detail\"\x7d"⟩).1 _ rfl,
   (error_string_format ⟨"test.bad", DetailVal.userBad "chan int"
        "json: unsupported type: chan int"⟩).2 _ rfl⟩

/-- C7: round-trip — a typed error built by `New` stores exactly the code and
the detail passed in, and the pure accessors `Code()` and `Detail()` return
the stored fields verbatim. -/
theorem ex_roundtrip (reg : Registry) (code : String) (detail : DetailVal) (e : ex)
    (h : New reg code detail = Except.ok e) :
    ex.Code e = code ∧ ex.Detail e = detail := by
  unfold New at h
  split at h
  · exact absurd h (by simp)
  · split at h
    · exact absurd h (by simp)
    · injection h with h
      subst h
      exact ⟨rfl, rfl⟩

theorem ex_roundtrip_witness :
    ex.Code ⟨ErrCodeUnknownError, DetailVal.unknownErrorDetail "d"⟩ = ErrCodeUnknownError
  ∧ ex.Detail ⟨ErrCodeUnknownError, DetailVal.unknownErrorDetail "d"⟩
      = DetailVal.unknownErrorDetail "d" :=
  ex_roundtrip initRegistry ErrCodeUnknownError (DetailVal.unknownErrorDetail "d") _ rfl

/-- C9: a base converter node with no successor returns absence (`none`, not an
error) for every input; once a successor is attached via `SetNext`, its
`ConvertError` returns exactly the result of the successor for every input. -/
theorem base_converter_absence_or_delegation (reg : Registry) (err : GoErr) :
    ConvertError reg ⟨ConvKind.baseConv, []⟩ err = Except.ok none
  ∧ ∀ (rest : List ConvKind) (n : Converter),
      ConvertError reg (SetNext ⟨ConvKind.baseConv, rest⟩ n) err = ConvertError reg n err := by
  exact ⟨rfl, fun rest n => rfl⟩

/-- C2: a first call to `RegisterErrorCode` for a fresh code succeeds and
inserts a new registry entry; every subsequent call with the same code — on
the resulting registry or on any registry reached from it by further
successful registrations — does not return normally but panics with an
`AlreadyRegistered` errorex carrying the offending code. -/
theorem register_once_then_rejected (reg : Registry) (code description : String)
    (detail : DetailVal) (h : regFind reg code = none) :
    RegisterErrorCode reg code description detail
        = Except.ok (reg ++ [(code, ⟨code, description, typeOf detail⟩)])
  ∧ regFind (reg ++ [(code, ⟨code, description, typeOf detail⟩)]) code
        = some ⟨code, description, typeOf detail⟩
  ∧ (∀ reg2 : Registry,
      Relation.ReflTransGen regStep
        (reg ++ [(code, ⟨code, description, typeOf detail⟩)]) reg2 →
      ∀ (description2 : String) (detail2 : DetailVal),
        RegisterErrorCode reg2 code description2 detail2
          = Except.error ⟨ErrCodeAlreadyRegistered, DetailVal.errorEXDetail code⟩) := by
  refine ⟨by simp [RegisterErrorCode, h], regFind_insert_self reg code _ h, ?_⟩
  intro reg2 hsteps description2 detail2
  have hfind := regFind_persists code ⟨code, description, typeOf detail⟩ _ _ hsteps
    (regFind_insert_self reg code ⟨code, description, typeOf detail⟩ h)
  simp [RegisterErrorCode, hfind]

theorem register_once_then_rejected_witness :
    RegisterErrorCode initRegistry "test.code" "test description"
        (DetailVal.userOk "struct \x7b Message string \x7d" "\x7b\x7d")
      = Except.ok (initRegistry ++ [("test.code",
          ⟨"test.code", "test description", TypeDesc.named "struct \x7b Message string \x7d"⟩)])
  ∧ RegisterErrorCode (initRegistry ++ [("test.code",
          ⟨"test.code", "test description", TypeDesc.named "struct \x7b Message string \x7d"⟩)])
        "test.code" "again" (DetailVal.errorEXDetail "z")
      = Except.error ⟨ErrCodeAlreadyRegistered, DetailVal.errorEXDetail "test.code"⟩ :=
  ⟨(register_once_then_rejected initRegistry "test.code" "test description"
      (DetailVal.userOk "struct \x7b Message string \x7d" "\x7b\x7d") rfl).1,
   (register_once_then_rejected initRegistry "test.code" "test description"
      (DetailVal.userOk "struct \x7b Message string \x7d" "\x7b\x7d") rfl).2.2
      _ Relation.ReflTransGen.refl "again" (DetailVal.errorEXDetail "z")⟩

/-- C4: `Is` panics with a `NotRegistered` errorex carrying the target code
when that code is unregistered, for every input error, nil included; when the
code is registered it returns false on nil input, returns false for any value
not exposing the `Code()` capability, and for a typed error built by `New` it
returns exactly whether the stored code equals the target code. -/
theorem is_registration_and_code_check (reg : Registry) (code : String) :
    (regFind reg code = none → ∀ err : Option GoErr,
      Is reg err code = Except.error ⟨ErrCodeNotRegistered, DetailVal.errorEXDetail code⟩)
  ∧ (regFind reg code ≠ none →
        Is reg none code = Except.ok false
      ∧ (∀ v : GoErr, hasCodeCapability v = false → Is reg (some v) code = Except.ok false)
      ∧ (∀ (reg2 : Registry) (code2 : String) (detail2 : DetailVal) (e : ex),
          New reg2 code2 detail2 = Except.ok e →
          Is reg (some (GoErr.exErr e)) code = Except.ok (ex.Code e == code))) := by
  constructor
  · intro h err; simp [Is, h]
  · intro h
    obtain ⟨entry, hfind⟩ : ∃ entry, regFind reg code = some entry := by
      cases hf : regFind reg code with
      | none => exact absurd hf h
      | some entry => exact ⟨entry, rfl⟩
    refine ⟨by simp [Is, hfind], fun v hv => ?_, fun reg2 code2 detail2 e he => ?_⟩
    · unfold Is
      rw [hfind]
      unfold hasCodeCapability at hv
      cases hp : GoErr.isPtr v with
      | false => simp [hp]
      | true =>
          cases hcr : GoErr.codeResults v with
          | none => simp [hp, hcr]
          | some results =>
              rw [hcr] at hv
              cases results with
              | nil => simp [hp, hcr]
              | cons a tail =>
                  cases tail with
                  | nil =>
                      cases a with
                      | str s => simp at hv
                      | nonString => simp [hp, hcr]
                  | cons b tail2 => simp [hp, hcr]
    · simp [Is, hfind, GoErr.isPtr, GoErr.codeResults, ex.Code]

theorem is_registration_and_code_check_witness :
    Is initRegistry none "nope.code"
      = Except.error ⟨ErrCodeNotRegistered, DetailVal.errorEXDetail "nope.code"⟩
  ∧ Is initRegistry none ErrCodeUnknownError = Except.ok false
  ∧ Is initRegistry (some (GoErr.duck ⟨true, "m", none, false⟩)) ErrCodeUnknownError
      = Except.ok false
  ∧ Is initRegistry (some (GoErr.exErr ⟨ErrCodeUnknownError, DetailVal.unknownErrorDetail "d"⟩))
      ErrCodeUnknownError = Except.ok true
  ∧ Is initRegistry (some (GoErr.exErr ⟨ErrCodeUnknownError, DetailVal.unknownErrorDetail "d"⟩))
      ErrCodeNotRegistered = Except.ok false :=
  ⟨(is_registration_and_code_check initRegistry "nope.code").1 rfl none,
   ((is_registration_and_code_check initRegistry ErrCodeUnknownError).2 (by decide)).1,
   ((is_registration_and_code_check initRegistry ErrCodeUnknownError).2 (by decide)).2.1
     (GoErr.duck ⟨true, "m", none, false⟩) rfl,
   ((is_registration_and_code_check initRegistry ErrCodeUnknownError).2 (by decide)).2.2
     initRegistry ErrCodeUnknownError (DetailVal.unknownErrorDetail "d") _ rfl,
   ((is_registration_and_code_check initRegistry ErrCodeNotRegistered).2 (by decide)).2.2
     initRegistry ErrCodeUnknownError (DetailVal.unknownErrorDetail "d") _ rfl⟩

/-- C5 counterexample: a non-nil error value whose zero-argument `Code()`
method returns the registered code `errorex.000`, but whose dynamic value is
not a pointer; the claim requires `Is` to return true for it, yet `Is`
returns false because of the pointer-kind test. -/
theorem is_nonpointer_counterexample :
    GoErr.codeResults
        (GoErr.duck ⟨false, "m", some [CallResult.str ErrCodeUnknownError], false⟩)
      = some [CallResult.str ErrCodeUnknownError]
  ∧ regFind initRegistry ErrCodeUnknownError ≠ none
  ∧ Is initRegistry
      (some (GoErr.duck ⟨false, "m", some [CallResult.str ErrCodeUnknownError], false⟩))
      ErrCodeUnknownError = Except.ok false :=
  ⟨rfl, by decide, rfl⟩

/-- C5 (amended): for every registered code and every non-nil error offering a
zero-argument `Code()` accessor returning a string `s`, `Is` returns true
exactly when the value is represented as a pointer and `s` equals the target
code; a non-pointer value never passes the capability test, so `Is` returns
false for it regardless of its `Code()` accessor. -/
theorem is_capability_pointer_only (reg : Registry) (code : String) (v : GoErr) (s : String)
    (hreg : regFind reg code ≠ none)
    (hcode : GoErr.codeResults v = some [CallResult.str s]) :
    Is reg (some v) code = Except.ok (GoErr.isPtr v && (s == code)) := by
  obtain ⟨entry, hfind⟩ : ∃ entry, regFind reg code = some entry := by
    cases hf : regFind reg code with
    | none => exact absurd hf hreg
    | some entry => exact ⟨entry, rfl⟩
  cases hp : GoErr.isPtr v with
  | false => simp [Is, hfind, hp]
  | true => simp [Is, hfind, hp, hcode]

theorem is_capability_pointer_only_witness :
    Is initRegistry
        (some (GoErr.duck ⟨true, "m", some [CallResult.str ErrCodeUnknownError], false⟩))
        ErrCodeUnknownError
      = Except.ok true :=
  is_capability_pointer_only initRegistry ErrCodeUnknownError
    (GoErr.duck ⟨true, "m", some [CallResult.str ErrCodeUnknownError], false⟩)
    ErrCodeUnknownError (by decide) rfl

theorem convertOn_total_of_endsInUnknown (reg : Registry) (entry : errorCodeRegistry)
    (hfind : regFind reg ErrCodeUnknownError = some entry)
    (htype : entry.detailType = TypeDesc.unknownErrorDetail) :
    ∀ (rest : List ConvKind) (k : ConvKind) (err : GoErr), endsInUnknown k rest = true →
      ∃ r, convertOn reg k rest err = Except.ok (some r) := by
  intro rest
  induction rest with
  | nil =>
      intro k err h
      cases k with
      | baseConv => simp [endsInUnknown] at h
      | unknownConv =>
          refine ⟨GoErr.exErr ⟨ErrCodeUnknownError,
            DetailVal.unknownErrorDetail (GoErr.msg err)⟩, ?_⟩
          simp [convertOn, New, hfind, htype, typeOf]
      | exPassConv => simp [endsInUnknown] at h
  | cons k2 rest2 ih =>
      intro k err h
      cases k with
      | baseConv => exact ih k2 err h
      | unknownConv =>
          refine ⟨GoErr.exErr ⟨ErrCodeUnknownError,
            DetailVal.unknownErrorDetail (GoErr.msg err)⟩, ?_⟩
          simp [convertOn, New, hfind, htype, typeOf]
      | exPassConv =>
          cases himpl : GoErr.implementsEX err with
          | true => exact ⟨err, by simp [convertOn, himpl]⟩
          | false =>
              obtain ⟨r, hr⟩ := ih k2 err h
              exact ⟨r, by simp [convertOn, himpl, hr]⟩

/-- C6: the catch-all converter unconditionally produces the typed error with
the reserved unknown-error code `errorex.000` and a detail payload carrying
the message of the input error; it never returns absence and never fails itself,
and any chain whose last node is the catch-all converter never returns
absence for any input. -/
theorem unknown_converter_totality (reg : Registry) (entry : errorCodeRegistry)
    (hfind : regFind reg ErrCodeUnknownError = some entry)
    (htype : entry.detailType = TypeDesc.unknownErrorDetail) :
    (∀ (rest : List ConvKind) (err : GoErr),
      ConvertError reg ⟨ConvKind.unknownConv, rest⟩ err
        = Except.ok (some (GoErr.exErr
            ⟨ErrCodeUnknownError, DetailVal.unknownErrorDetail (GoErr.msg err)⟩)))
  ∧ (∀ (c : Converter) (err : GoErr), endsInUnknown c.kind c.rest = true →
      ∃ r, ConvertError reg c err = Except.ok (some r)) := by
  constructor
  · intro rest err
    simp [ConvertError, convertOn, New, hfind, htype, typeOf]
  · intro c err h
    exact convertOn_total_of_endsInUnknown reg entry hfind htype c.rest c.kind err h

theorem unknown_converter_totality_witness :
    ConvertError initRegistry NewUnknownErrorConverter
        (GoErr.duck ⟨true, "test error", none, false⟩)
      = Except.ok (some (GoErr.exErr
          ⟨ErrCodeUnknownError, DetailVal.unknownErrorDetail "test error"⟩))
  ∧ ∃ r, ConvertError initRegistry ⟨ConvKind.baseConv, [ConvKind.unknownConv]⟩
        (GoErr.duck ⟨true, "test error", none, false⟩) = Except.ok (some r) :=
  ⟨(unknown_converter_totality initRegistry
      ⟨ErrCodeUnknownError, "Unknown errorex", TypeDesc.unknownErrorDetail⟩ rfl rfl).1 []
      (GoErr.duck ⟨true, "test error", none, false⟩),
   (unknown_converter_totality initRegistry
      ⟨ErrCodeUnknownError, "Unknown errorex", TypeDesc.unknownErrorDetail⟩ rfl rfl).2
      ⟨ConvKind.baseConv, [ConvKind.unknownConv]⟩
      (GoErr.duck ⟨true, "test error", none, false⟩) rfl⟩

/-- C8: the EX passthrough converter returns an error that already satisfies
the typed-error capability unchanged — the same value, not a re-wrapped copy —
and otherwise delegates to its successor and returns the result of the successor. -/
theorem expass_identity_or_delegate (reg : Registry) (err : GoErr) :
    (GoErr.implementsEX err = true →
      ∀ rest : List ConvKind,
        ConvertError reg ⟨ConvKind.exPassConv, rest⟩ err = Except.ok (some err))
  ∧ (GoErr.implementsEX err = false →
      ∀ n : Converter,
        ConvertError reg (NewEXErrorConverter n) err = ConvertError reg n err) := by
  constructor
  · intro h rest
    cases rest with
    | nil => simp [ConvertError, convertOn, h]
    | cons k2 rest2 => simp [ConvertError, convertOn, h]
  · intro h n; simp [ConvertError, convertOn, NewEXErrorConverter, SetNext, h]

theorem expass_identity_or_delegate_witness :
    ConvertError initRegistry ⟨ConvKind.exPassConv, []⟩
        (GoErr.exErr ⟨ErrCodeUnknownError, DetailVal.unknownErrorDetail "d"⟩)
      = Except.ok (some (GoErr.exErr ⟨ErrCodeUnknownError, DetailVal.unknownErrorDetail "d"⟩))
  ∧ ConvertError initRegistry (NewEXErrorConverter NewUnknownErrorConverter)
        (GoErr.duck ⟨true, "boom", none, false⟩)
      = ConvertError initRegistry NewUnknownErrorConverter
          (GoErr.duck ⟨true, "boom", none, false⟩) :=
  ⟨(expass_identity_or_delegate initRegistry
      (GoErr.exErr ⟨ErrCodeUnknownError, DetailVal.unknownErrorDetail "d"⟩)).1 rfl [],
   (expass_identity_or_delegate initRegistry
      (GoErr.duck ⟨true, "boom", none, false⟩)).2 rfl NewUnknownErrorConverter⟩

/-- Whether the four reserved codes are present with the detail types `init`
registers for them. -/
def hasReservedCodes (reg : Registry) : Bool :=
  (match regFind reg ErrCodeUnknownError with
    | some en => decide (en.detailType = TypeDesc.unknownErrorDetail)
    | none => false)
  && (match regFind reg ErrCodeNotRegistered with
    | some en => decide (en.detailType = TypeDesc.errorEXDetail)
    | none => false)
  && (match regFind reg ErrCodeAlreadyRegistered with
    | some en => decide (en.detailType = TypeDesc.errorEXDetail)
    | none => false)
  && (match regFind reg ErrDetailTypeMismatch with
    | some en => decide (en.detailType = TypeDesc.errorEXDetailTypeMismatch)
    | none => false)

theorem hasReserved_lookup (reg : Registry) (h : hasReservedCodes reg = true) :
    (∃ en, regFind reg ErrCodeNotRegistered = some en
        ∧ en.detailType = TypeDesc.errorEXDetail)
  ∧ (∃ en, regFind reg ErrCodeAlreadyRegistered = some en
        ∧ en.detailType = TypeDesc.errorEXDetail)
  ∧ (∃ en, regFind reg ErrDetailTypeMismatch = some en
        ∧ en.detailType = TypeDesc.errorEXDetailTypeMismatch) := by
  unfold hasReservedCodes at h
  simp only [Bool.and_eq_true] at h
  obtain ⟨⟨⟨_, h1⟩, h2⟩, h3⟩ := h
  refine ⟨?_, ?_, ?_⟩
  · cases hf : regFind reg ErrCodeNotRegistered with
    | none => rw [hf] at h1; cases h1
    | some en => rw [hf] at h1; exact ⟨en, rfl, of_decide_eq_true h1⟩
  · cases hf : regFind reg ErrCodeAlreadyRegistered with
    | none => rw [hf] at h2; cases h2
    | some en => rw [hf] at h2; exact ⟨en, rfl, of_decide_eq_true h2⟩
  · cases hf : regFind reg ErrDetailTypeMismatch with
    | none => rw [hf] at h3; cases h3
    | some en => rw [hf] at h3; exact ⟨en, rfl, of_decide_eq_true h3⟩

theorem new_eq_none (reg : Registry) (code : String) (detail : DetailVal)
    (h : regFind reg code = none) :
    New reg code detail
      = Except.error ⟨ErrCodeNotRegistered, DetailVal.errorEXDetail code⟩ := by
  simp [New, h]

theorem new_eq_some (reg : Registry) (code : String) (detail : DetailVal)
    (entry : errorCodeRegistry) (h : regFind reg code = some entry) :
    New reg code detail
      = if typeOf detail = entry.detailType then Except.ok ⟨code, detail⟩
        else Except.error ⟨ErrDetailTypeMismatch,
          DetailVal.errorEXDetailTypeMismatch entry.detailType.str (typeOf detail).str⟩ := by
  by_cases he : typeOf detail = entry.detailType
  · simp [New, h, he]
  · simp [New, h, he]

theorem new_reserved_ok (reg : Registry) (hres : hasReservedCodes reg = true) (c : String) :
    New reg ErrCodeNotRegistered (DetailVal.errorEXDetail c)
      = Except.ok ⟨ErrCodeNotRegistered, DetailVal.errorEXDetail c⟩
  ∧ New reg ErrCodeAlreadyRegistered (DetailVal.errorEXDetail c)
      = Except.ok ⟨ErrCodeAlreadyRegistered, DetailVal.errorEXDetail c⟩
  ∧ ∀ e a : String, New reg ErrDetailTypeMismatch (DetailVal.errorEXDetailTypeMismatch e a)
      = Except.ok ⟨ErrDetailTypeMismatch, DetailVal.errorEXDetailTypeMismatch e a⟩ := by
  obtain ⟨⟨en1, hf1, hd1⟩, ⟨en2, hf2, hd2⟩, ⟨en3, hf3, hd3⟩⟩ := hasReserved_lookup reg hres
  refine ⟨?_, ?_, fun e a => ?_⟩
  · rw [new_eq_some reg _ _ en1 hf1, hd1]
    simp [typeOf]
  · rw [new_eq_some reg _ _ en2 hf2, hd2]
    simp [typeOf]
  · rw [new_eq_some reg _ _ en3 hf3, hd3]
    simp [typeOf]

theorem is_ok_of_registered (reg : Registry) (code : String) (entry : errorCodeRegistry)
    (hf : regFind reg code = some entry) (err : Option GoErr) :
    ∃ b, Is reg err code = Except.ok b := by
  unfold Is
  rw [hf]
  cases err with
  | none => exact ⟨false, rfl⟩
  | some v =>
      cases hp : GoErr.isPtr v with
      | false => exact ⟨false, by simp [hp]⟩
      | true =>
          cases hcr : GoErr.codeResults v with
          | none => exact ⟨false, by simp [hp, hcr]⟩
          | some results =>
              cases results with
              | nil => exact ⟨false, by simp [hp, hcr]⟩
              | cons a tail =>
                  cases tail with
                  | nil =>
                      cases a with
                      | str s => exact ⟨s == code, by simp [hp, hcr]⟩
                      | nonString => exact ⟨false, by simp [hp, hcr]⟩
                  | cons b tail2 => exact ⟨false, by simp [hp, hcr]⟩

/-- C10: every panic raised by `RegisterErrorCode`, `New` or `Is` carries a
well-formed typed error of the vocabulary of the library itself, buildable by `New`
from a pre-registered reserved code: duplicate registration panics with code
`errorex.002` and a detail carrying the offending code, an unregistered code
in `New` or `Is` panics with code `errorex.001` and a detail carrying the
code, and a detail-type mismatch panics with code `errorex.003` and a detail
carrying the expected and actual type names; this is well-defined because
`init` registers the four reserved codes `errorex.000`–`errorex.003` starting
from the empty registry before any other operation. -/
theorem reserved_panic_values_wellformed :
    (runInit = Except.ok initRegistry ∧ hasReservedCodes initRegistry = true)
  ∧ ∀ reg : Registry, hasReservedCodes reg = true →
      (∀ (code description : String) (detail : DetailVal) (p : ex),
          RegisterErrorCode reg code description detail = Except.error p →
          p = ⟨ErrCodeAlreadyRegistered, DetailVal.errorEXDetail code⟩
        ∧ New reg (ex.Code p) (ex.Detail p) = Except.ok p)
    ∧ (∀ (code : String) (detail : DetailVal) (p : ex),
          New reg code detail = Except.error p →
          New reg (ex.Code p) (ex.Detail p) = Except.ok p
        ∧ ((p = ⟨ErrCodeNotRegistered, DetailVal.errorEXDetail code⟩
              ∧ regFind reg code = none)
          ∨ (∃ entry, regFind reg code = some entry
              ∧ p = ⟨ErrDetailTypeMismatch,
                  DetailVal.errorEXDetailTypeMismatch entry.detailType.str (typeOf detail).str⟩)))
    ∧ (∀ (err : Option GoErr) (code : String) (p : ex),
          Is reg err code = Except.error p →
          p = ⟨ErrCodeNotRegistered, DetailVal.errorEXDetail code⟩
        ∧ New reg (ex.Code p) (ex.Detail p) = Except.ok p) := by
  refine ⟨⟨rfl, rfl⟩, fun reg hres => ⟨?_, ?_, ?_⟩⟩
  · intro code description detail p hp
    unfold RegisterErrorCode at hp
    split at hp
    · injection hp with hq
      subst hq
      exact ⟨rfl, (new_reserved_ok reg hres code).2.1⟩
    · exact absurd hp (by simp)
  · intro code detail p hp
    cases hf : regFind reg code with
    | none =>
        rw [new_eq_none reg code detail hf] at hp
        injection hp with hq
        subst hq
        exact ⟨(new_reserved_ok reg hres code).1, Or.inl ⟨rfl, rfl⟩⟩
    | some entry =>
        rw [new_eq_some reg code detail entry hf] at hp
        by_cases he : typeOf detail = entry.detailType
        · rw [if_pos he] at hp
          exact absurd hp (by simp)
        · rw [if_neg he] at hp
          injection hp with hq
          subst hq
          exact ⟨(new_reserved_ok reg hres code).2.2 entry.detailType.str (typeOf detail).str,
            Or.inr ⟨entry, rfl, rfl⟩⟩
  · intro err code p hp
    cases hf : regFind reg code with
    | none =>
        have hko : Is reg err code
            = Except.error ⟨ErrCodeNotRegistered, DetailVal.errorEXDetail code⟩ := by
          simp [Is, hf]
        rw [hko] at hp
        injection hp with hq
        subst hq
        exact ⟨rfl, (new_reserved_ok reg hres code).1⟩
    | some entry =>
        obtain ⟨b, hb⟩ := is_ok_of_registered reg code entry hf err
        rw [hb] at hp
        exact absurd hp (by simp)

theorem reserved_panic_values_wellformed_witness :
    New initRegistry ErrCodeAlreadyRegistered (DetailVal.errorEXDetail ErrCodeUnknownError)
      = Except.ok ⟨ErrCodeAlreadyRegistered, DetailVal.errorEXDetail ErrCodeUnknownError⟩
  ∧ New initRegistry ErrCodeNotRegistered (DetailVal.errorEXDetail "nope.code")
      = Except.ok ⟨ErrCodeNotRegistered, DetailVal.errorEXDetail "nope.code"⟩ :=
  ⟨((reserved_panic_values_wellformed.2 initRegistry rfl).1 ErrCodeUnknownError "dup"
      (DetailVal.unknownErrorDetail "")
      ⟨ErrCodeAlreadyRegistered, DetailVal.errorEXDetail ErrCodeUnknownError⟩ rfl).2,
   ((reserved_panic_values_wellformed.2 initRegistry rfl).2.1 "nope.code"
      (DetailVal.unknownErrorDetail "")
      ⟨ErrCodeNotRegistered, DetailVal.errorEXDetail "nope.code"⟩ rfl).1⟩

end Errorex
